import Mathlib

/-!
Shallow embedding of the Ethereum data-collector core
(`data-collector/collector.py`, first variant, and
`data-collector/collector_new.py`, second variant).

HTTP interactions are modelled by typed response values: each upstream
response carries its integer `status` and a typed body in which optional
JSON keys are `Option` fields.  Python exceptions are modelled by
`Except String`; a fetch that can raise returns `Except String α`, a
fetch that swallows all failures returns a plain record.  Python string
`hash` is modelled as an arbitrary but fixed function `String → Int`
(one fixed hash per interpreter process).  Numeric JSON values are
embedded as rationals; integer coercions `int(s)` and `int(s, 16)` are
modelled by executable decimal/hex parsers below.
-/

namespace EthCollector

/-- Decimal digit value of a character, as Python int() accepts it. -/
def digitVal (c : Char) : Option Nat :=
  let n := c.toNat
  if 48 ≤ n ∧ n ≤ 57 then some (n - 48) else none

/-- Fold a decimal digit list into a number; fails on a non-digit. -/
def decAux : List Char → Nat → Option Nat
  | [], acc => some acc
  | c :: cs, acc =>
    match digitVal c with
    | some d => decAux cs (10 * acc + d)
    | none => none

/-- Parse a non-empty all-digit character list. -/
def decChars (l : List Char) : Option Nat :=
  if l = [] then none else decAux l 0

/-- Model of Python `int(s)` on a string: optional minus sign followed by
decimal digits; anything else raises ValueError. -/
def pyInt (s : String) : Except String Int :=
  match s.toList with
  | '-' :: rest =>
    match decChars rest with
    | some n => .ok (-(n : Int))
    | none => .error ("invalid literal for int: " ++ s)
  | l =>
    match decChars l with
    | some n => .ok ((n : Int))
    | none => .error ("invalid literal for int: " ++ s)

/-- Hexadecimal digit value of a character. -/
def hexVal (c : Char) : Option Nat :=
  let n := c.toNat
  if 48 ≤ n ∧ n ≤ 57 then some (n - 48)
  else if 97 ≤ n ∧ n ≤ 102 then some (n - 87)
  else if 65 ≤ n ∧ n ≤ 70 then some (n - 55)
  else none

/-- Fold a hex digit list into a number; fails on a non-hex character. -/
def hexAux : List Char → Nat → Option Nat
  | [], acc => some acc
  | c :: cs, acc =>
    match hexVal c with
    | some d => hexAux cs (16 * acc + d)
    | none => none

/-- Parse a non-empty all-hex character list. -/
def hexChars (l : List Char) : Option Nat :=
  if l = [] then none else hexAux l 0

/-- Model of Python `int(s, 16)`: optional `0x`/`0X` marker followed by hex
digits; anything else raises ValueError. -/
def pyIntHex (s : String) : Except String Nat :=
  match
    (match s.toList with
     | '0' :: 'x' :: rest => hexChars rest
     | '0' :: 'X' :: rest => hexChars rest
     | l => hexChars l) with
  | some n => .ok n
  | none => .error ("invalid literal for int with base 16: " ++ s)

/-- Mandatory dictionary access `d[k]`: a missing key raises KeyError. -/
def getKey {α : Type} (k : String) (v : Option α) : Except String α :=
  match v with
  | some a => .ok a
  | none => .error ("KeyError: " ++ k)

/-! ### Price client (`fetch_current_price`, lines 74-97 of collector.py,
and `collect_eth_price_data`, lines 45-73 of collector_new.py) -/

/-- Fields that may appear under the `ethereum` key of the CoinGecko
simple-price JSON body. -/
structure PriceEthereumFields where
  usd : Option ℚ
  btc : Option ℚ
  usd_market_cap : Option ℚ
  usd_24h_vol : Option ℚ
  usd_24h_change : Option ℚ
deriving Repr, DecidableEq

/-- JSON body of a price-endpoint response. -/
structure PriceBody where
  ethereum : Option PriceEthereumFields
deriving Repr, DecidableEq

/-- HTTP response of the price endpoint: status plus parsed JSON body. -/
structure PriceResponse where
  status : Nat
  body : PriceBody
deriving Repr, DecidableEq

/-- Record built by `fetch_current_price` in the first variant. -/
structure PriceData where
  price_usd : ℚ
  price_btc : ℚ
  market_cap : ℚ
  volume_24h : ℚ
  change_24h : ℚ
  timestamp : String
deriving Repr, DecidableEq

/-- `EthereumDataCollector.fetch_current_price` (first variant): on
status 200 read the five fields under `ethereum` (a missing key raises
KeyError), otherwise raise `Price API error: <status>`. -/
def fetch_current_price (resp : PriceResponse) (now : String) :
    Except String PriceData :=
  if resp.status = 200 then do
    let eth ← getKey "ethereum" resp.body.ethereum
    let usd ← getKey "usd" eth.usd
    let btc ← getKey "btc" eth.btc
    let mcap ← getKey "usd_market_cap" eth.usd_market_cap
    let vol ← getKey "usd_24h_vol" eth.usd_24h_vol
    let chg ← getKey "usd_24h_change" eth.usd_24h_change
    .ok { price_usd := usd, price_btc := btc, market_cap := mcap,
          volume_24h := vol, change_24h := chg, timestamp := now }
  else
    .error ("Price API error: " ++ toString resp.status)

/-- Record built by `collect_eth_price_data` in the second variant; note
there is no `price_btc` field. -/
structure PriceDataNew where
  timestamp : String
  price_usd : ℚ
  market_cap : ℚ
  volume_24h : ℚ
  change_24h : ℚ
deriving Repr, DecidableEq

/-- `EthereumDataCollector.collect_eth_price_data` (second variant): the
HTTP status is never inspected; the body fields are read directly and a
missing key raises KeyError (re-raised by the local try/except). -/
def collect_eth_price_data (resp : PriceResponse) (now : String) :
    Except String PriceDataNew := do
  let eth ← getKey "ethereum" resp.body.ethereum
  let usd ← getKey "usd" eth.usd
  let mcap ← getKey "usd_market_cap" eth.usd_market_cap
  let vol ← getKey "usd_24h_vol" eth.usd_24h_vol
  let chg ← getKey "usd_24h_change" eth.usd_24h_change
  .ok { timestamp := now, price_usd := usd, market_cap := mcap,
        volume_24h := vol, change_24h := chg }

/-! ### Gas-oracle client (`fetch_gas_tracker`, lines 168-184 of
collector.py, and `collect_gas_data`, lines 75-100 of collector_new.py) -/

/-- Fields that may appear under the `result` key of the gas-oracle JSON
body; the upstream serves them as strings. -/
structure GasResultFields where
  SafeGasPrice : Option String
  StandardGasPrice : Option String
  FastGasPrice : Option String
deriving Repr, DecidableEq

/-- JSON body of a gas-oracle response. -/
structure GasBody where
  result : Option GasResultFields
deriving Repr, DecidableEq

/-- HTTP response of the gas-oracle endpoint. -/
structure GasResponse where
  status : Nat
  body : GasBody
deriving Repr, DecidableEq

/-- Record built by `fetch_gas_tracker` in the first variant. -/
structure GasData where
  safe_gas_price : Int
  standard_gas_price : Int
  fast_gas_price : Int
  timestamp : String
deriving Repr, DecidableEq

/-- Model of `int(result.get(k, 0))`: a missing key defaults to the
integer 0, a present string is coerced with `int`. -/
def intOrDefault0 (v : Option String) : Except String Int :=
  match v with
  | none => .ok 0
  | some s => pyInt s

/-- `EthereumDataCollector.fetch_gas_tracker` (first variant): on status
200, `data.get("result", {})` then `int(result.get(field, 0))` for the
three gas fields; otherwise raise `Gas tracker API error: <status>`. -/
def fetch_gas_tracker (resp : GasResponse) (now : String) :
    Except String GasData :=
  if resp.status = 200 then do
    let result := resp.body.result.getD ⟨none, none, none⟩
    let safe ← intOrDefault0 result.SafeGasPrice
    let std ← intOrDefault0 result.StandardGasPrice
    let fast ← intOrDefault0 result.FastGasPrice
    .ok { safe_gas_price := safe, standard_gas_price := std,
          fast_gas_price := fast, timestamp := now }
  else
    .error ("Gas tracker API error: " ++ toString resp.status)

/-- Record built by `collect_gas_data` in the second variant. -/
structure GasDataNew where
  timestamp : String
  safe_gas_price : Int
  standard_gas_price : Int
  fast_gas_price : Int
deriving Repr, DecidableEq

/-- `EthereumDataCollector.collect_gas_data` (second variant): the HTTP
status is never inspected; `data["result"][field]` raises KeyError when
missing and each value is coerced with `int`. -/
def collect_gas_data (resp : GasResponse) (now : String) :
    Except String GasDataNew := do
  let result ← getKey "result" resp.body.result
  let safeS ← getKey "SafeGasPrice" result.SafeGasPrice
  let safe ← pyInt safeS
  let stdS ← getKey "StandardGasPrice" result.StandardGasPrice
  let std ← pyInt stdS
  let fastS ← getKey "FastGasPrice" result.FastGasPrice
  let fast ← pyInt fastS
  .ok { timestamp := now, safe_gas_price := safe,
        standard_gas_price := std, fast_gas_price := fast }

/-! ### DeFi-metrics client (`fetch_defi_metrics`, lines 186-202 of
collector.py) -/

/-- JSON body of the DeFi-metrics endpoint; `total` is optional and
defaulted with `data.get("total", 0)`. -/
structure DefiBody where
  total : Option ℚ
deriving Repr, DecidableEq

/-- HTTP response of the DeFi-metrics endpoint. -/
structure DefiResponse where
  status : Nat
  body : DefiBody
deriving Repr, DecidableEq

/-- Record built by `fetch_defi_metrics`: on success a value and a
timestamp, on any failure a zero value and an error string. -/
structure DefiMetrics where
  total_value_locked : ℚ
  timestamp : Option String
  error : Option String
deriving Repr, DecidableEq

/-- `EthereumDataCollector.fetch_defi_metrics`: the whole request is
wrapped in try/except.  `req` is the network outcome (`.error e` models
an exception raised while performing the request).  Any failure is
swallowed and reported as `total_value_locked = 0` with an error string;
the function never raises. -/
def fetch_defi_metrics (req : Except String DefiResponse) (now : String) :
    DefiMetrics :=
  match req with
  | .error e => { total_value_locked := 0, timestamp := none, error := some e }
  | .ok resp =>
    if resp.status = 200 then
      { total_value_locked := resp.body.total.getD 0,
        timestamp := some now, error := none }
    else
      { total_value_locked := 0, timestamp := none,
        error := some ("Status " ++ toString resp.status) }

/-! ### Recent-blocks client (`fetch_recent_blocks`, lines 126-166 of
collector.py) -/

/-- Raw block dictionary as served under `result` by
`eth_getBlockByNumber`; hex-encoded numeric fields are strings, and the
`transactions` list (only its length is used) is optional because the
code reads it with `block.get("transactions", [])`. -/
structure RawBlock where
  number : String
  hash : String
  timestamp : String
  transactions : Option (List Unit)
  gasUsed : String
  gasLimit : String
  miner : String
  size : String
deriving Repr, DecidableEq

/-- HTTP response of one per-block sub-request: status plus the optional
`result` value of its JSON body. -/
structure BlockSubResponse where
  status : Nat
  result : Option RawBlock
deriving Repr, DecidableEq

/-- HTTP response of the latest-block-number request (`eth_blockNumber`):
status plus the optional `result` hex string. -/
structure BlockNumberResponse where
  status : Nat
  result : Option String
deriving Repr, DecidableEq

/-- Decoded block record appended to the result list. -/
structure BlockInfo where
  number : Nat
  hash : String
  timestamp : Nat
  transaction_count : Nat
  gas_used : Nat
  gas_limit : Nat
  miner : String
  size : Nat
deriving Repr, DecidableEq

/-- Decode one raw block dictionary, in the evaluation order of the
Python dict literal; a malformed hex field raises. -/
def decodeBlock (b : RawBlock) : Except String BlockInfo := do
  let num ← pyIntHex b.number
  let ts ← pyIntHex b.timestamp
  let gu ← pyIntHex b.gasUsed
  let gl ← pyIntHex b.gasLimit
  let sz ← pyIntHex b.size
  .ok { number := num, hash := b.hash, timestamp := ts,
        transaction_count := (b.transactions.getD []).length,
        gas_used := gu, gas_limit := gl, miner := b.miner, size := sz }

/-- The per-block loop of `fetch_recent_blocks`: for `i` in
`range(count)` request block `latestBlock - i` (`sub` maps a block
number to its sub-response); a non-200 status or a missing/falsy
`result` is silently skipped, a present result is decoded and appended. -/
def fetchBlocksLoop (sub : Int → BlockSubResponse) (latestBlock : Int) :
    Nat → Nat → Except String (List BlockInfo)
  | _, 0 => .ok []
  | i, n + 1 =>
    let resp := sub (latestBlock - i)
    if resp.status = 200 then
      match resp.result with
      | some raw =>
        match decodeBlock raw with
        | .ok b =>
          match fetchBlocksLoop sub latestBlock (i + 1) n with
          | .ok rest => .ok (b :: rest)
          | .error e => .error e
        | .error e => .error e
      | none => fetchBlocksLoop sub latestBlock (i + 1) n
    else
      fetchBlocksLoop sub latestBlock (i + 1) n

/-- `EthereumDataCollector.fetch_recent_blocks`: resolve the latest block
number (non-200 raises, missing `result` raises KeyError, the hex string
is decoded), then run the per-block loop for `count` blocks
(default 5). -/
def fetch_recent_blocks (count : Nat) (latest : BlockNumberResponse)
    (sub : Int → BlockSubResponse) : Except String (List BlockInfo) :=
  if latest.status = 200 then do
    let r ← getKey "result" latest.result
    let lb ← pyIntHex r
    fetchBlocksLoop sub (lb : Int) 0 count
  else
    .error ("Block number API error: " ++ toString latest.status)

/-- The settled outcome of the sub-request for index `i` (block
`latestBlock - i`): `some raw` when the status was 200 and a result was
present, otherwise `none` (the skipped cases). -/
def subOutcome (sub : Int → BlockSubResponse) (latestBlock : Int)
    (i : Nat) : Option RawBlock :=
  let resp := sub (latestBlock - i)
  if resp.status = 200 then resp.result else none

/-! ### Network-stats payload (`fetch_network_stats`, lines 99-124 of
collector.py) — only its record shape is needed by the orchestrator. -/

/-- Record built by `fetch_network_stats`. -/
structure NetworkStats where
  total_supply : String
  eth_price : List (String × String)
  latest_block : Nat
  timestamp : String
deriving Repr, DecidableEq

/-! ### Collection orchestrator (`fetch_ethereum_data`, lines 47-72 of
collector.py) -/

/-- The combined per-cycle record. -/
structure CombinedData where
  timestamp : String
  data_version : String
  source : String
  price_data : Option PriceData
  network_stats : Option NetworkStats
  recent_blocks : Option (List BlockInfo)
  gas_data : Option GasData
  defi_metrics : Option DefiMetrics
  errors : List String
deriving Repr, DecidableEq

/-- `str(r)` for a settled task outcome when it is an exception, `none`
otherwise. -/
def errOf {α : Type} : Except String α → Option String
  | .error e => some e
  | .ok _ => none

/-- `EthereumDataCollector.fetch_ethereum_data`: the five source fetches
are gathered with `return_exceptions=True`, so each settles to a result
or an exception (`Except`).  An exception puts `None` in the payload
slot and contributes one `str(r)` entry, in task order, to `errors`. -/
def fetch_ethereum_data (now : String)
    (r1 : Except String PriceData) (r2 : Except String NetworkStats)
    (r3 : Except String (List BlockInfo)) (r4 : Except String GasData)
    (r5 : Except String DefiMetrics) : CombinedData :=
  { timestamp := now
    data_version := "1.0"
    source := "ethereum_collector"
    price_data := r1.toOption
    network_stats := r2.toOption
    recent_blocks := r3.toOption
    gas_data := r4.toOption
    defi_metrics := r5.toOption
    errors := [errOf r1, errOf r2, errOf r3, errOf r4, errOf r5].filterMap id }

/-! ### Delivery sink adapter (`send_to_event_hub`, lines 204-224 of
collector.py) -/

/-- The partition key computed in `send_to_event_hub`:
`str(hash(data["timestamp"]) % 10)`.  `pyHash` is the process-wide
Python string hash (fixed for one interpreter run); Python `%` on a
positive modulus returns the non-negative residue, as Lean `Int.emod`
does. -/
def partition_key (pyHash : String → Int) (ts : String) : String :=
  toString (pyHash ts % 10)

/-- The wire-level event sent to the hub: serialized body, fixed
properties, and the partition key. -/
structure EventEnvelope where
  body : String
  properties : List (String × String)
  partitionKey : String
deriving Repr, DecidableEq

/-- `EthereumDataCollector.send_to_event_hub`, up to the sink call:
serialize the record (`serialize` models `json.dumps`), attach the three
fixed properties, and derive the partition key from the record
timestamp. -/
def send_to_event_hub (pyHash : String → Int)
    (serialize : CombinedData → String) (data : CombinedData) :
    EventEnvelope :=
  { body := serialize data
    properties := [("source", "ethereum_collector"), ("version", "1.0"),
                   ("data_type", "ethereum_metrics")]
    partitionKey := partition_key pyHash data.timestamp }

/-! ### Collection loops (`run_collection_loop`, lines 226-250 of
collector.py, and `run_continuous`, lines 209-219 of
collector_new.py) -/

/-- Observable effects of one tick of a collection loop. -/
structure TickResult where
  deliveryAttempts : Nat
  sleep : ℚ
  errorLogged : Option String
deriving Repr, DecidableEq

/-- One tick of `run_collection_loop` (first variant, fast interval).
`fetch_ethereum_data` itself cannot raise (it gathers with
`return_exceptions=True`), so the tick outcome is determined by the
delivery outcome and the measured elapsed work time: on success sleep
`max(0, interval - elapsed)`, on an exception log it and sleep the fixed
5-second backoff.  Exactly one delivery attempt is made either way, and
the tick always produces a result (the loop returns to RUNNING). -/
def run_collection_tick (interval elapsed : ℚ)
    (deliver : Except String Unit) : TickResult :=
  match deliver with
  | .ok _ =>
    { deliveryAttempts := 1, sleep := max 0 (interval - elapsed),
      errorLogged := none }
  | .error e =>
    { deliveryAttempts := 1, sleep := 5, errorLogged := some e }

/-- The `while True` loop of `run_collection_loop`, run for `n` ticks
starting at tick index `k`; `ticks` supplies each tick's elapsed time
and delivery outcome. -/
def run_collection_loop (interval : ℚ)
    (ticks : Nat → ℚ × Except String Unit) : Nat → Nat → List TickResult
  | _, 0 => []
  | k, n + 1 =>
    run_collection_tick interval (ticks k).1 (ticks k).2 ::
      run_collection_loop interval ticks (k + 1) n

/-- Observable effects of one tick of `run_continuous` (second
variant). -/
structure ContTickResult where
  sleep : ℚ
  errorLogged : Option String
deriving Repr, DecidableEq

/-- One tick of `run_continuous`: run the collection cycle; on success
sleep the full interval, on any exception log it and sleep the fixed
60-second backoff. -/
def run_continuous_tick (interval : ℚ) (cycle : Except String Unit) :
    ContTickResult :=
  match cycle with
  | .ok _ => { sleep := interval, errorLogged := none }
  | .error e => { sleep := 60, errorLogged := some e }

/-- The `while True` loop of `run_continuous`, run for `n` ticks starting
at tick index `k`. -/
def run_continuous_loop (interval : ℚ)
    (cycles : Nat → Except String Unit) : Nat → Nat → List ContTickResult
  | _, 0 => []
  | k, n + 1 =>
    run_continuous_tick interval (cycles k) ::
      run_continuous_loop interval cycles (k + 1) n

/-! ### Auxiliary predicates used by the statements -/

/-- Boolean success test for a fallible computation. -/
def isOkE {α : Type} : Except String α → Bool
  | .ok _ => true
  | .error _ => false

/-- All keys read by the first variant price fetch are present. -/
def hasAllPriceKeys (b : PriceBody) : Bool :=
  match b.ethereum with
  | none => false
  | some eth =>
    eth.usd.isSome && eth.btc.isSome && eth.usd_market_cap.isSome &&
      eth.usd_24h_vol.isSome && eth.usd_24h_change.isSome

/-- All keys read by the second variant price fetch are present (it never
reads `btc`). -/
def hasNewPriceKeys (b : PriceBody) : Bool :=
  match b.ethereum with
  | none => false
  | some eth =>
    eth.usd.isSome && eth.usd_market_cap.isSome &&
      eth.usd_24h_vol.isSome && eth.usd_24h_change.isSome

/-- The decoded block the sub-request for index `i` contributes, if any:
`none` when the sub-request was skipped, otherwise the decoded block
(when decoding succeeds). -/
def subDecoded (sub : Int → BlockSubResponse) (latestBlock : Int)
    (i : Nat) : Option BlockInfo :=
  (subOutcome sub latestBlock i).bind fun raw => (decodeBlock raw).toOption

/-- The raw block served for index `i`, when there is one, decodes
without error (rules out the malformed-hex exception path, which the
skip behaviour does not cover). -/
def subParses (sub : Int → BlockSubResponse) (latestBlock : Int)
    (i : Nat) : Bool :=
  match subOutcome sub latestBlock i with
  | some raw => isOkE (decodeBlock raw)
  | none => true

/-- A well-formed raw block used as a concrete sub-request payload. -/
def goodRaw : RawBlock :=
  { number := "0x64", hash := "0xabc", timestamp := "0x10",
    transactions := some [(), ()], gasUsed := "0x5208",
    gasLimit := "0x1c9c380", miner := "0xdef", size := "0x220" }

/-- A concrete sub-request map in which exactly the request for block 97
fails (status 500) and every other block is served. -/
def sampleSub : Int → BlockSubResponse := fun b =>
  if b = (97 : Int) then { status := 500, result := none }
  else { status := 200, result := some goodRaw }

/-! ## Helper lemmas -/

/-- Success of a fallible computation is the existence of an `ok` value. -/
theorem isOkE_iff {α : Type} (x : Except String α) :
    isOkE x = true ↔ ∃ a, x = .ok a := by
  cases x <;> simp [isOkE]

/-- A bind whose first step already succeeded just continues. -/
theorem exceptBindOk {α β : Type} (a : α) (f : α → Except String β) :
    (do
      let x ← (Except.ok a : Except String α)
      f x) = f a := rfl

/-- The length of a `filterMap` counts the inputs mapped to `some`. -/
theorem length_filterMap_count {α β : Type} (f : α → Option β)
    (l : List α) :
    (l.filterMap f).length = l.countP (fun a => (f a).isSome) := by
  induction l with
  | nil => rfl
  | cons a t ih =>
    cases h : f a <;>
      simp [List.filterMap_cons, h, List.countP_cons, ih]

/-- Counting a predicate over `range count` when it fails at exactly one
index below `count`. -/
theorem countP_range_single_false (p : Nat → Bool) (count j0 : Nat)
    (hj0 : j0 < count) (hfalse : p j0 = false)
    (htrue : ∀ j, j < count → j ≠ j0 → p j = true) :
    (List.range count).countP p = count - 1 := by
  induction count with
  | zero => omega
  | succ m ih =>
    rw [List.range_succ, List.countP_append]
    rcases Nat.lt_succ_iff_lt_or_eq.mp hj0 with hlt | rfl
    · have hm : p m = true := htrue m (Nat.lt_succ_self m) (by omega)
      have : (List.range m).countP p = m - 1 :=
        ih hlt (fun j hj hne => htrue j (Nat.lt_succ_of_lt hj) hne)
      simp [List.countP_cons, hm, this]
      omega
    · have : (List.range j0).countP p = j0 := by
        have hall : ∀ a ∈ List.range j0, p a = true := fun a ha =>
          htrue a (Nat.lt_succ_of_lt (List.mem_range.mp ha))
            (Nat.ne_of_lt (List.mem_range.mp ha))
        calc (List.range j0).countP p = (List.range j0).length :=
              List.countP_eq_length.mpr hall
          _ = j0 := List.length_range j0
      simp [List.countP_cons, hfalse, this]

/-- Characterization of the per-block loop when every served raw block
decodes: it succeeds and returns, in index order, exactly the blocks of
the sub-requests that were not skipped. -/
theorem fetchBlocksLoop_ok (sub : Int → BlockSubResponse)
    (latestBlock : Int) :
    ∀ (n i : Nat),
      (∀ j, i ≤ j → j < i + n → subParses sub latestBlock j = true) →
      fetchBlocksLoop sub latestBlock i n =
        .ok (((List.range n).map (fun t => i + t)).filterMap
          (subDecoded sub latestBlock)) := by
  intro n
  induction n with
  | zero => intro i _; rfl
  | succ m ih =>
    intro i H
    have Hi : subParses sub latestBlock i = true :=
      H i (Nat.le_refl i) (by omega)
    have Htail := ih (i + 1) (fun j h1 h2 => H j (by omega) (by omega))
    have hmap : (List.range (m + 1)).map (fun t => i + t) =
        i :: (List.range m).map (fun t => (i + 1) + t) := by
      rw [List.range_succ_eq_map, List.map_cons, List.map_map]
      have hc : ((fun t => i + t) ∘ Nat.succ) = fun t => (i + 1) + t := by
        funext t; simp [Function.comp]; omega
      rw [hc]
      simp
    rw [hmap]
    simp only [fetchBlocksLoop]
    by_cases hst : (sub (latestBlock - (i : Int))).status = 200
    · rw [if_pos hst]
      cases hres : (sub (latestBlock - (i : Int))).result with
      | none =>
        have hd : subDecoded sub latestBlock i = none := by
          simp [subDecoded, subOutcome, hst, hres]
        simp [List.filterMap_cons, hd, Htail]
      | some raw =>
        have hout : subOutcome sub latestBlock i = some raw := by
          simp [subOutcome, hst, hres]
        have Hi2 : isOkE (decodeBlock raw) = true := by
          have h := Hi
          unfold subParses at h
          rw [hout] at h
          exact h
        obtain ⟨b, hb⟩ := (isOkE_iff _).mp Hi2
        have hd : subDecoded sub latestBlock i = some b := by
          simp [subDecoded, hout, hb, Except.toOption]
        simp [List.filterMap_cons, hd, hb, Htail]
    · rw [if_neg hst]
      have hd : subDecoded sub latestBlock i = none := by
        simp [subDecoded, subOutcome, hst]
      simp [List.filterMap_cons, hd, Htail]

/-! ## Claims -/

/-- C1: for every collection cycle, `fetch_ethereum_data` returns a
CombinedRecord even when every one of the five source fetches raises an
exception: every payload slot is null, and the errors sequence contains
exactly one string entry per failed source, in task order; the cycle
never aborts because sources failed. -/
theorem C1_collect_survives_total_failure (now e1 e2 e3 e4 e5 : String) :
    fetch_ethereum_data now (.error e1) (.error e2) (.error e3)
        (.error e4) (.error e5) =
      { timestamp := now, data_version := "1.0",
        source := "ethereum_collector", price_data := none,
        network_stats := none, recent_blocks := none, gas_data := none,
        defi_metrics := none, errors := [e1, e2, e3, e4, e5] } := by
  rfl

/-- C2: the partition/routing key computed during delivery is a pure,
deterministic function of the cycle timestamp: for one fixed
process-wide string hash, any two records with the same timestamp — even
with different payloads and different serializations — get the same
partition key, so redelivery of the same cycle timestamp routes
consistently. -/
theorem C2_partition_key_deterministic (pyHash : String → Int)
    (ser1 ser2 : CombinedData → String) (d1 d2 : CombinedData)
    (h : d1.timestamp = d2.timestamp) :
    (send_to_event_hub pyHash ser1 d1).partitionKey =
      (send_to_event_hub pyHash ser2 d2).partitionKey := by
  simp [send_to_event_hub, partition_key, h]

/-- C2 witness: two concrete records sharing the timestamp but differing
in payload and serializer route to the same partition key. -/
theorem C2_partition_key_deterministic_witness :
    (send_to_event_hub (fun s => (s.length : Int)) (fun _ => "x")
      { timestamp := "2024-01-01T00:00:00+00:00", data_version := "1.0",
        source := "ethereum_collector", price_data := none,
        network_stats := none, recent_blocks := none, gas_data := none,
        defi_metrics := none, errors := ["a"] }).partitionKey =
    (send_to_event_hub (fun s => (s.length : Int)) (fun _ => "yy")
      { timestamp := "2024-01-01T00:00:00+00:00", data_version := "1.0",
        source := "ethereum_collector", price_data := none,
        network_stats := none, recent_blocks := none, gas_data := none,
        defi_metrics := none, errors := [] }).partitionKey :=
  C2_partition_key_deterministic (fun s => (s.length : Int))
    (fun _ => "x") (fun _ => "yy") _ _ rfl

/-- C3: any exception raised during a tick — including one from the
delivery sink — is caught at the loop boundary and never propagates out
of the tick: the error is logged, the loop sleeps the fixed backoff
(5 seconds in the fast-interval variant, 60 seconds in the continuous
variant), delivery is attempted exactly once (no redelivery within the
tick), and the loop keeps running: over any tick inputs, `n` loop
iterations produce exactly `n` tick results. -/
theorem C3_tick_errors_contained (interval elapsed : ℚ)
    (ticks : Nat → ℚ × Except String Unit)
    (cycles : Nat → Except String Unit) (e : String) (k n : Nat) :
    (run_collection_loop interval ticks k n).length = n ∧
    run_collection_tick interval elapsed (.error e) =
      { deliveryAttempts := 1, sleep := 5, errorLogged := some e } ∧
    (run_continuous_loop interval cycles k n).length = n ∧
    run_continuous_tick interval (.error e) =
      { sleep := 60, errorLogged := some e } := by
  refine ⟨?_, rfl, ?_, rfl⟩
  · induction n generalizing k with
    | zero => rfl
    | succ m ih => simpa [run_collection_loop] using ih (k + 1)
  · induction n generalizing k with
    | zero => rfl
    | succ m ih => simpa [run_continuous_loop] using ih (k + 1)

/-- C7: the DeFi-metrics fetch never propagates a failure: whenever the
request raises or the response status is not 200, it returns a record
with `total_value_locked = 0` and an embedded error string instead of
raising (by its type it always returns a record). -/
theorem C7_defi_never_fails (req : Except String DefiResponse)
    (now : String) :
    (∀ e, req = .error e →
      fetch_defi_metrics req now =
        { total_value_locked := 0, timestamp := none,
          error := some e }) ∧
    (∀ resp, req = .ok resp → resp.status ≠ 200 →
      fetch_defi_metrics req now =
        { total_value_locked := 0, timestamp := none,
          error := some ("Status " ++ toString resp.status) }) := by
  constructor
  · rintro e rfl; rfl
  · rintro resp rfl h
    simp [fetch_defi_metrics, h]

/-- C7 witness: a raised request and a 503 response both yield the
zero-valued best-effort record. -/
theorem C7_defi_never_fails_witness :
    fetch_defi_metrics (.error "boom") "t0" =
      { total_value_locked := 0, timestamp := none,
        error := some "boom" } ∧
    fetch_defi_metrics (.ok { status := 503, body := { total := some 5 } })
        "t0" =
      { total_value_locked := 0, timestamp := none,
        error := some "Status 503" } := by
  constructor
  · exact (C7_defi_never_fails (.error "boom") "t0").1 "boom" rfl
  · exact (C7_defi_never_fails
      (.ok { status := 503, body := { total := some 5 } }) "t0").2
      { status := 503, body := { total := some 5 } } rfl (by decide)

/-- C8: on a successful tick of the fast-interval loop with interval `I`
and elapsed work time `e`, the pacing sleep equals `max 0 (I - e)`; in
particular when the work exceeds the interval the sleep is 0 and the
next cycle starts immediately. -/
theorem C8_pacing_sleep_floor (interval elapsed : ℚ) :
    (run_collection_tick interval elapsed (.ok ())).sleep =
        max 0 (interval - elapsed) ∧
    (interval ≤ elapsed →
      (run_collection_tick interval elapsed (.ok ())).sleep = 0) := by
  refine ⟨rfl, fun h => ?_⟩
  simp only [run_collection_tick]
  exact max_eq_left (by linarith)

/-- C8 witness: with a 10-second interval and 12 seconds of work the
sleep is `max 0 (10 - 12) = 0`. -/
theorem C8_pacing_sleep_floor_witness :
    (run_collection_tick 10 12 (.ok ())).sleep = max 0 (10 - 12) ∧
    (run_collection_tick 10 12 (.ok ())).sleep = 0 :=
  ⟨(C8_pacing_sleep_floor 10 12).1,
    (C8_pacing_sleep_floor 10 12).2 (by norm_num)⟩

/-- C4 counterexample: the claim covers both collector variants, but the
second variant never inspects the HTTP status: with status 500 and a
fully-populated body, `collect_eth_price_data` succeeds instead of
failing with the HTTP status, and its record has no price_btc field. -/
theorem C4_counterexample :
    collect_eth_price_data
      ⟨500, ⟨some ⟨some 3000, some 1, some 360000000000,
        some 12000000000, some 3⟩⟩⟩ "t0" =
      .ok { timestamp := "t0", price_usd := 3000,
            market_cap := 360000000000, volume_24h := 12000000000,
            change_24h := 3 } := by
  rfl

/-- C4 amended: the first variant behaves as claimed — on a status-200
response with all keys the scenario record (including price_btc) is
returned, every non-200 status fails with the HTTP status detail, and a
status-200 body missing an expected key fails.  The second variant omits
price_btc and ignores the HTTP status: with all expected keys present it
succeeds for every status, and it fails exactly on a missing expected
key. -/
theorem C4_price_contract_amended (now : String) :
    (∀ usd btc mcap vol chg : ℚ,
      fetch_current_price
        ⟨200, ⟨some ⟨some usd, some btc, some mcap, some vol,
          some chg⟩⟩⟩ now =
        .ok { price_usd := usd, price_btc := btc, market_cap := mcap,
              volume_24h := vol, change_24h := chg,
              timestamp := now }) ∧
    (∀ resp : PriceResponse, resp.status ≠ 200 →
      fetch_current_price resp now =
        .error ("Price API error: " ++ toString resp.status)) ∧
    (∀ resp : PriceResponse, resp.status = 200 →
      hasAllPriceKeys resp.body = false →
      isOkE (fetch_current_price resp now) = false) ∧
    (∀ st : Nat, ∀ btc : Option ℚ, ∀ usd mcap vol chg : ℚ,
      collect_eth_price_data
        ⟨st, ⟨some ⟨some usd, btc, some mcap, some vol, some chg⟩⟩⟩
        now =
        .ok { timestamp := now, price_usd := usd, market_cap := mcap,
              volume_24h := vol, change_24h := chg }) ∧
    (∀ resp : PriceResponse, hasNewPriceKeys resp.body = false →
      isOkE (collect_eth_price_data resp now) = false) := by
  refine ⟨fun usd btc mcap vol chg => rfl, ?_, ?_, ?_, ?_⟩
  · intro resp h
    rcases resp with ⟨st, body⟩
    dsimp at h
    unfold fetch_current_price
    rw [if_neg h]
  · intro resp h hk
    rcases resp with ⟨st, ⟨eth⟩⟩
    dsimp at h
    subst h
    cases eth with
    | none => rfl
    | some e =>
      rcases e with ⟨u, b, m, v, c⟩
      cases u <;> cases b <;> cases m <;> cases v <;> cases c <;>
        first
          | rfl
          | simp [hasAllPriceKeys] at hk
  · intro st btc usd mcap vol chg
    rfl
  · intro resp hk
    rcases resp with ⟨st, ⟨eth⟩⟩
    cases eth with
    | none => rfl
    | some e =>
      rcases e with ⟨u, b, m, v, c⟩
      cases u <;> cases m <;> cases v <;> cases c <;>
        first
          | rfl
          | simp [hasNewPriceKeys] at hk

/-- C4 witness: the amended contract evaluated at the scenario inputs —
the spec scenario body on status 200 (first variant), a 500 response
(both variants), and bodies with a missing key (both variants). -/
theorem C4_price_contract_amended_witness :
    fetch_current_price
      ⟨200, ⟨some ⟨some 3000, some 0.05, some 3.6e11, some 1.2e10,
        some 2.5⟩⟩⟩ "t0" =
      .ok { price_usd := 3000, price_btc := 0.05, market_cap := 3.6e11,
            volume_24h := 1.2e10, change_24h := 2.5,
            timestamp := "t0" } ∧
    fetch_current_price
      ⟨500, ⟨some ⟨some 3000, some 0.05, some 3.6e11, some 1.2e10,
        some 2.5⟩⟩⟩ "t0" =
      .error ("Price API error: " ++ toString (500 : Nat)) ∧
    isOkE (fetch_current_price
      ⟨200, ⟨some ⟨none, some 1, some 1, some 1, some 1⟩⟩⟩ "t0") =
      false ∧
    collect_eth_price_data
      ⟨500, ⟨some ⟨some 3000, some 0.05, some 3.6e11, some 1.2e10,
        some 2.5⟩⟩⟩ "t0" =
      .ok { timestamp := "t0", price_usd := 3000, market_cap := 3.6e11,
            volume_24h := 1.2e10, change_24h := 2.5 } ∧
    isOkE (collect_eth_price_data ⟨200, ⟨none⟩⟩ "t0") = false := by
  refine ⟨(C4_price_contract_amended "t0").1 3000 0.05 3.6e11 1.2e10 2.5,
    ?_, ?_, ?_, ?_⟩
  · exact (C4_price_contract_amended "t0").2.1
      ⟨500, ⟨some ⟨some 3000, some 0.05, some 3.6e11, some 1.2e10,
        some 2.5⟩⟩⟩ (by decide)
  · exact (C4_price_contract_amended "t0").2.2.1
      ⟨200, ⟨some ⟨none, some 1, some 1, some 1, some 1⟩⟩⟩ rfl
      (by decide)
  · exact (C4_price_contract_amended "t0").2.2.2.1 500 (some 0.05)
      3000 3.6e11 1.2e10 2.5
  · exact (C4_price_contract_amended "t0").2.2.2.2 ⟨200, ⟨none⟩⟩
      (by decide)

/-- C5 counterexample: the claim covers both collector variants, but the
second variant never inspects the HTTP status: with status 500 and the
scenario body, `collect_gas_data` succeeds with the coerced values
instead of failing. -/
theorem C5_counterexample :
    collect_gas_data ⟨500, ⟨some ⟨some "10", some "15", some "25"⟩⟩⟩
        "t0" =
      .ok { timestamp := "t0", safe_gas_price := 10,
            standard_gas_price := 15, fast_gas_price := 25 } := by
  rfl

/-- C5 amended: both variants coerce the scenario strings to
{safe 10, standard 15, fast 25}: the first on status 200, the second for
every status, since it never inspects the status; a non-200 status makes
only the first variant fail, with the HTTP status detail. -/
theorem C5_gas_contract_amended (now : String) :
    (fetch_gas_tracker ⟨200, ⟨some ⟨some "10", some "15", some "25"⟩⟩⟩
        now =
      .ok { safe_gas_price := 10, standard_gas_price := 15,
            fast_gas_price := 25, timestamp := now }) ∧
    (∀ resp : GasResponse, resp.status ≠ 200 →
      fetch_gas_tracker resp now =
        .error ("Gas tracker API error: " ++ toString resp.status)) ∧
    (∀ st : Nat,
      collect_gas_data ⟨st, ⟨some ⟨some "10", some "15", some "25"⟩⟩⟩
          now =
        .ok { timestamp := now, safe_gas_price := 10,
              standard_gas_price := 15, fast_gas_price := 25 }) := by
  refine ⟨rfl, ?_, fun st => rfl⟩
  intro resp h
  rcases resp with ⟨st, body⟩
  dsimp at h
  unfold fetch_gas_tracker
  rw [if_neg h]

/-- C5 witness: the amended contract evaluated at the scenario body with
status 200 and 503 (first variant) and status 503 (second variant). -/
theorem C5_gas_contract_amended_witness :
    fetch_gas_tracker ⟨200, ⟨some ⟨some "10", some "15", some "25"⟩⟩⟩
        "t0" =
      .ok { safe_gas_price := 10, standard_gas_price := 15,
            fast_gas_price := 25, timestamp := "t0" } ∧
    fetch_gas_tracker ⟨503, ⟨some ⟨some "10", some "15", some "25"⟩⟩⟩
        "t0" =
      .error ("Gas tracker API error: " ++ toString (503 : Nat)) ∧
    collect_gas_data ⟨503, ⟨some ⟨some "10", some "15", some "25"⟩⟩⟩
        "t0" =
      .ok { timestamp := "t0", safe_gas_price := 10,
            standard_gas_price := 15, fast_gas_price := 25 } := by
  refine ⟨(C5_gas_contract_amended "t0").1, ?_,
    (C5_gas_contract_amended "t0").2.2 503⟩
  exact (C5_gas_contract_amended "t0").2.1
    ⟨503, ⟨some ⟨some "10", some "15", some "25"⟩⟩⟩ (by decide)

/-- C6: for a recent-blocks fetch with count `c`, each per-block
sub-request that fails or returns a missing result is silently omitted
rather than raising: the result is exactly the successfully fetched
blocks in index order (latest, latest-1, …, latest-(c-1)), and when
exactly one of the sub-requests fails the returned sequence has length
`c - 1` (so 4 of 5). -/
theorem C6_failed_blocks_skipped (count : Nat)
    (latest : BlockNumberResponse) (sub : Int → BlockSubResponse)
    (r : String) (lb : Nat) (hst : latest.status = 200)
    (hres : latest.result = some r) (hlb : pyIntHex r = .ok lb)
    (hparse : ∀ j, j < count → subParses sub (lb : Int) j = true) :
    fetch_recent_blocks count latest sub =
      .ok ((List.range count).filterMap (subDecoded sub (lb : Int))) ∧
    (∀ j0, j0 < count → subOutcome sub (lb : Int) j0 = none →
      (∀ j, j < count → j ≠ j0 →
        (subOutcome sub (lb : Int) j).isSome = true) →
      ((List.range count).filterMap
        (subDecoded sub (lb : Int))).length = count - 1) := by
  constructor
  · rcases latest with ⟨st, res⟩
    dsimp at hst hres
    subst hst
    subst hres
    unfold fetch_recent_blocks
    rw [if_pos rfl]
    have hloop := fetchBlocksLoop_ok sub (lb : Int) count 0
      (fun j _ h2 => hparse j (by omega))
    have hmap0 : (List.range count).map (fun t => 0 + t) =
        List.range count :=
      List.map_id'' (fun t => Nat.zero_add t) _
    rw [hmap0] at hloop
    show (do
      let r2 ← getKey "result" (some r)
      let lb2 ← pyIntHex r2
      fetchBlocksLoop sub (lb2 : Int) 0 count) = _
    rw [show getKey "result" (some r) = Except.ok r from rfl,
      exceptBindOk, hlb, exceptBindOk]
    exact hloop
  · intro j0 hj0 hnone hsome
    rw [length_filterMap_count]
    apply countP_range_single_false _ count j0 hj0
    · simp [subDecoded, hnone]
    · intro j hj hne
      obtain ⟨raw, hraw⟩ := Option.isSome_iff_exists.mp (hsome j hj hne)
      have hp : isOkE (decodeBlock raw) = true := by
        have h := hparse j hj
        unfold subParses at h
        rw [hraw] at h
        exact h
      obtain ⟨b, hb⟩ := (isOkE_iff _).mp hp
      simp [subDecoded, hraw, hb, Except.toOption]

/-- C6 witness: with latest block 0x64 = 100, count 5 and the concrete
sub-request map in which exactly the request for block 97 (index 3)
fails, the fetch succeeds and returns 4 blocks. -/
theorem C6_failed_blocks_skipped_witness :
    fetch_recent_blocks 5 { status := 200, result := some "0x64" }
        sampleSub =
      .ok ((List.range 5).filterMap (subDecoded sampleSub (100 : Int))) ∧
    ((List.range 5).filterMap
      (subDecoded sampleSub (100 : Int))).length = 4 := by
  have h := C6_failed_blocks_skipped 5
    { status := 200, result := some "0x64" } sampleSub "0x64" 100 rfl rfl
    rfl (by decide)
  exact ⟨h.1, h.2 3 (by decide) (by decide) (by decide)⟩

/-- C9: in the first variant, a status-200 gas-oracle response whose
body lacks the result key, or lacks any of the SafeGasPrice /
StandardGasPrice / FastGasPrice fields, does not make the fetch fail:
every missing field is reported as the integer 0 (fields that are
present must still coerce, which the hypotheses grant). -/
theorem C9_gas_missing_defaults (resp : GasResponse) (now : String)
    (hst : resp.status = 200) :
    (resp.body.result = none →
      fetch_gas_tracker resp now =
        .ok { safe_gas_price := 0, standard_gas_price := 0,
              fast_gas_price := 0, timestamp := now }) ∧
    (∀ f, resp.body.result = some f →
      isOkE (intOrDefault0 f.SafeGasPrice) = true →
      isOkE (intOrDefault0 f.StandardGasPrice) = true →
      isOkE (intOrDefault0 f.FastGasPrice) = true →
      ∃ g, fetch_gas_tracker resp now = .ok g ∧ g.timestamp = now ∧
        (f.SafeGasPrice = none → g.safe_gas_price = 0) ∧
        (f.StandardGasPrice = none → g.standard_gas_price = 0) ∧
        (f.FastGasPrice = none → g.fast_gas_price = 0)) := by
  rcases resp with ⟨st, ⟨res⟩⟩
  dsimp at hst
  subst hst
  constructor
  · intro hres
    dsimp at hres
    subst hres
    rfl
  · intro f hres h1 h2 h3
    dsimp at hres
    subst hres
    obtain ⟨v1, hv1⟩ := (isOkE_iff _).mp h1
    obtain ⟨v2, hv2⟩ := (isOkE_iff _).mp h2
    obtain ⟨v3, hv3⟩ := (isOkE_iff _).mp h3
    refine ⟨{ safe_gas_price := v1, standard_gas_price := v2,
              fast_gas_price := v3, timestamp := now }, ?_, rfl,
            ?_, ?_, ?_⟩
    · unfold fetch_gas_tracker
      rw [if_pos rfl]
      show (do
        let safe ← intOrDefault0 f.SafeGasPrice
        let std ← intOrDefault0 f.StandardGasPrice
        let fast ← intOrDefault0 f.FastGasPrice
        Except.ok ({ safe_gas_price := safe, standard_gas_price := std,
                     fast_gas_price := fast, timestamp := now } :
          GasData)) = _
      rw [hv1, exceptBindOk, hv2, exceptBindOk, hv3, exceptBindOk]
    · intro hnone
      rw [hnone] at hv1
      simpa [intOrDefault0] using hv1.symm
    · intro hnone
      rw [hnone] at hv2
      simpa [intOrDefault0] using hv2.symm
    · intro hnone
      rw [hnone] at hv3
      simpa [intOrDefault0] using hv3.symm

/-- C9 witness: a 200 response with no result key yields all-zero gas
prices, and a 200 response with only StandardGasPrice present defaults
the two missing fields to 0. -/
theorem C9_gas_missing_defaults_witness :
    fetch_gas_tracker ⟨200, ⟨none⟩⟩ "t0" =
      .ok { safe_gas_price := 0, standard_gas_price := 0,
            fast_gas_price := 0, timestamp := "t0" } ∧
    ∃ g, fetch_gas_tracker ⟨200, ⟨some ⟨none, some "15", none⟩⟩⟩ "t0" =
        .ok g ∧ g.timestamp = "t0" ∧
      ((none : Option String) = none → g.safe_gas_price = 0) ∧
      (some "15" = none → g.standard_gas_price = 0) ∧
      ((none : Option String) = none → g.fast_gas_price = 0) := by
  constructor
  · exact (C9_gas_missing_defaults ⟨200, ⟨none⟩⟩ "t0" rfl).1 rfl
  · exact (C9_gas_missing_defaults ⟨200, ⟨some ⟨none, some "15", none⟩⟩⟩
      "t0" rfl).2 ⟨none, some "15", none⟩ rfl (by decide) (by decide)
      (by decide)

/-- C10: for every timestamp string (and every process-wide string
hash), the partition key is a single decimal digit string, because it is
the non-negative residue modulo 10 rendered as a string. -/
theorem C10_partition_key_is_digit (pyHash : String → Int)
    (ts : String) :
    partition_key pyHash ts ∈
      ["0", "1", "2", "3", "4", "5", "6", "7", "8", "9"] := by
  have h0 : 0 ≤ pyHash ts % 10 := Int.emod_nonneg _ (by norm_num)
  have h1 : pyHash ts % 10 < 10 := Int.emod_lt_of_pos _ (by norm_num)
  obtain ⟨m, hm⟩ := Int.eq_ofNat_of_zero_le h0
  have hmlt : m < 10 := by omega
  unfold partition_key
  rw [hm]
  interval_cases m <;> decide

end EthCollector
